import Mathlib

/-!
Shallow embedding of the benefit-matching engine (location filter,
requirement evaluator, match scorer, match pipeline) together with
theorems checking the claims of the specification against it.

JavaScript conventions carried over:
* `undefined` / absent optional fields become `Option.none`;
* `Array.prototype.includes` becomes list membership (exact string equality);
* `coverage.xs?.length` as a guard is true iff the field is present and the
  list is non-empty;
* `Math.round` on a non-negative value is floor(x + 1/2) (round half up);
* `Array.prototype.sort` is a stable sort (ECMAScript requirement), embedded
  with `List.mergeSort`.
-/

/-- Resolved geographic identity (interface `ZipLocation`). -/
structure ZipLocation where
  zip : String
  city : String
  county : String
  countyFips : String
  stateName : String
  stateCode : String
deriving DecidableEq

/-- Benefit levels (federal, state, county, city, nonprofit). -/
inductive BenefitLevel where
  | federal
  | stateLevel
  | county
  | city
  | nonprofit
deriving DecidableEq

/-- Geographic coverage descriptor: each dimension optional, a missing or
empty list meaning no restriction at that granularity. -/
structure Coverage where
  states : Option (List String)
  counties : Option (List String)
  cities : Option (List String)
  zipCodes : Option (List String)
deriving DecidableEq

/-- Structured eligibility criteria. The evaluator reads only
`minServiceDays`, `dischargeTypes`, `minDisabilityRating` and
`requiresSpouse`; `maxIncome` is present in the data model but never read. -/
structure EligibilityCriteria where
  minServiceDays : Option Nat
  dischargeTypes : Option (List String)
  minDisabilityRating : Option Nat
  requiresSpouse : Option Bool
  maxIncome : Option Nat
deriving DecidableEq

/-- One eligibility requirement: a type tag (a plain string in the source signature of
`checkRequirement`), a description, and optional criteria. -/
structure EligibilityRequirement where
  reqType : String
  description : String
  criteria : Option EligibilityCriteria
deriving DecidableEq

/-- Eligibility descriptor of a benefit. -/
structure Eligibility where
  summary : String
  requirements : List EligibilityRequirement
deriving DecidableEq

/-- A catalog entry. Display, action, source and tag fields are never read
by the matching engine and are omitted from the embedding. -/
structure Benefit where
  id : String
  name : String
  category : String
  level : BenefitLevel
  coverage : Coverage
  eligibility : Eligibility
deriving DecidableEq

/-- The self-reported facts of the applicant; fields the engine never reads are
omitted. Absent fields are `none`, semantically distinct from false/zero. -/
structure VeteranProfile where
  zipCode : String
  disabilityRating : Option Nat
  dischargeStatus : Option String
  yearsOfService : Option Nat
  incomeLevel : Option String
  hasSpouse : Option Bool
deriving DecidableEq

/-- Categorical eligibility status. -/
inductive EligibilityStatus where
  | likely
  | possible
  | unlikely
  | unknown
deriving DecidableEq

/-- Result of `checkRequirement`: three-valued verdict plus needs-info flag. -/
structure CheckResult where
  met : Option Bool
  needsInfo : Bool
deriving DecidableEq

/-- Result record of `calculateMatch`. -/
structure MatchOutcome where
  matchScore : Nat
  eligibilityStatus : EligibilityStatus
  matchedRequirements : List String
  missingInfo : List String
deriving DecidableEq

/-- A scored match (`BenefitMatch`). -/
structure BenefitMatch where
  benefit : Benefit
  matchScore : Nat
  eligibilityStatus : EligibilityStatus
  matchedRequirements : List String
  missingInfo : List String
deriving DecidableEq

/-- `lookupZipCode`: the placeholder zip-code table in the source. -/
def lookupZipCode (zip : String) : Option ZipLocation :=
  if zip = "78701" then
    some ⟨"78701", "Austin", "Travis County", "48453", "Texas", "TX"⟩
  else if zip = "78205" then
    some ⟨"78205", "San Antonio", "Bexar County", "48029", "Texas", "TX"⟩
  else if zip = "77001" then
    some ⟨"77001", "Houston", "Harris County", "48201", "Texas", "TX"⟩
  else
    none

/-- The guard `coverage.xs?.length` of the source: true iff the dimension is
present and non-empty. -/
def coverageSpecified (dim : Option (List String)) : Bool :=
  !(dim.getD []).isEmpty

/-- One coverage guard of `getBenefitsForLocation`:
`if (coverage.xs?.length) { if (!coverage.xs.includes(v)) return false; }`.
True exactly when the dimension is specified and fails to contain `v`. -/
def dimBlocks (dim : Option (List String)) (v : String) : Bool :=
  coverageSpecified dim && !(decide (v ∈ dim.getD []))

/-- Body of the filter callback in `getBenefitsForLocation` for a resolved
location. -/
def benefitApplies (zipCode : String) (location : ZipLocation) (benefit : Benefit) : Bool :=
  if benefit.level = BenefitLevel.federal then true
  else if dimBlocks benefit.coverage.states location.stateCode then false
  else if dimBlocks benefit.coverage.counties location.countyFips then false
  else if dimBlocks benefit.coverage.cities (location.city ++ ", " ++ location.stateCode) then false
  else if dimBlocks benefit.coverage.zipCodes zipCode then false
  else true

/-- `getBenefitsForLocation`: federal-only on unresolved zip, otherwise the
coverage filter. -/
def getBenefitsForLocation (zipCode : String) (allBenefits : List Benefit) : List Benefit :=
  match lookupZipCode zipCode with
  | none => allBenefits.filter (fun b => decide (b.level = BenefitLevel.federal))
  | some location => allBenefits.filter (benefitApplies zipCode location)

/-- `checkRequirement`: the per-requirement evaluation ladder. JS truthiness
notes: `!criteria` is "criteria absent"; `criteria.dischargeTypes &&
profile.dischargeStatus` is "both present" (arrays and the discharge
strings of the schema are truthy); `criteria.requiresSpouse` is truthy only
when it is present and equal to true. -/
def checkRequirement (profile : VeteranProfile) (req : EligibilityRequirement) : CheckResult :=
  match req.criteria with
  | none => ⟨none, true⟩
  | some criteria =>
    if req.reqType = "disability" then
      match profile.disabilityRating with
      | none => ⟨none, true⟩
      | some rating =>
        match criteria.minDisabilityRating with
        | some minRating => ⟨some (decide (rating ≥ minRating)), false⟩
        | none => ⟨none, true⟩
    else if req.reqType = "service" then
      match criteria.dischargeTypes, profile.dischargeStatus with
      | some types, some status => ⟨some (decide (status ∈ types)), false⟩
      | _, _ =>
        match criteria.minServiceDays, profile.yearsOfService with
        | some minDays, some years => ⟨some (decide (years * 365 ≥ minDays)), false⟩
        | _, _ => ⟨none, true⟩
    else if req.reqType = "income" then
      match profile.incomeLevel with
      | none => ⟨none, true⟩
      | some _ => ⟨none, true⟩
    else if req.reqType = "family" then
      if criteria.requiresSpouse = some true ∧ profile.hasSpouse = none then ⟨none, true⟩
      else if criteria.requiresSpouse = some true then
        ⟨some (decide (profile.hasSpouse = some true)), false⟩
      else ⟨none, true⟩
    else ⟨none, true⟩

/-- The requirement loop of `calculateMatch`, returning
(matchedRequirements, missingInfo, metRequirements) in iteration order. -/
def collectRequirements (profile : VeteranProfile) :
    List EligibilityRequirement → List String × List String × Nat
  | [] => ([], [], 0)
  | req :: rest =>
    let r := checkRequirement profile req
    let acc := collectRequirements profile rest
    if r.met = some true then (req.description :: acc.1, acc.2.1, acc.2.2 + 1)
    else if r.met = none ∨ r.needsInfo = true then (acc.1, req.description :: acc.2.1, acc.2.2)
    else acc

/-- `Math.round((met / total) * 100)` for `0 ≤ met ≤ total`, `total > 0`:
round half up of the exact rational, i.e. ⌊(met·200 + total) / (total·2)⌋. -/
def roundPct (met total : Nat) : Nat :=
  (met * 200 + total) / (total * 2)

/-- `calculateMatch`: aggregate per-requirement outcomes into score, status
and the two description lists. -/
def calculateMatch (profile : VeteranProfile) (benefit : Benefit) : MatchOutcome :=
  let totalRequirements := benefit.eligibility.requirements.length
  let acc := collectRequirements profile benefit.eligibility.requirements
  let matchedRequirements := acc.1
  let missingInfo := acc.2.1
  let metRequirements := acc.2.2
  let matchScore := if totalRequirements > 0 then roundPct metRequirements totalRequirements else 50
  let eligibilityStatus :=
    if missingInfo.length = totalRequirements then EligibilityStatus.unknown
    else if matchScore ≥ 80 then EligibilityStatus.likely
    else if matchScore ≥ 50 then EligibilityStatus.possible
    else EligibilityStatus.unlikely
  ⟨matchScore, eligibilityStatus, matchedRequirements, missingInfo⟩

/-- The `.map` stage of `matchBenefits`, before sorting. -/
def scoredMatches (profile : VeteranProfile) (benefits : List Benefit) : List BenefitMatch :=
  (getBenefitsForLocation profile.zipCode benefits).map (fun benefit =>
    let m := calculateMatch profile benefit
    ⟨benefit, m.matchScore, m.eligibilityStatus, m.matchedRequirements, m.missingInfo⟩)

/-- The descending-score comparator of `matchBenefits`
(`(a, b) => b.matchScore - a.matchScore` under a stable sort). -/
def scoreDesc (a b : BenefitMatch) : Bool :=
  decide (b.matchScore ≤ a.matchScore)

/-- `matchBenefits`: location filter, per-benefit scoring, stable sort by
descending score. -/
def matchBenefits (profile : VeteranProfile) (benefits : List Benefit) : List BenefitMatch :=
  (scoredMatches profile benefits).mergeSort scoreDesc

/-! Sample catalog and profile data used by the concrete witnesses. -/

/-- The location the zip-code table resolves `"78701"` to. -/
def austinLocation : ZipLocation :=
  ⟨"78701", "Austin", "Travis County", "48453", "Texas", "TX"⟩

/-- A federal benefit with no coverage restriction and no requirements. -/
def fedBenefit : Benefit :=
  ⟨"va-sample", "Sample Federal Benefit", "healthcare", BenefitLevel.federal,
    ⟨none, none, none, none⟩, ⟨"All veterans", []⟩⟩

/-- Criteria asking for a disability rating of at least 10. -/
def txCriteria : EligibilityCriteria := ⟨none, none, some 10, none, none⟩

/-- A Texas state-level benefit with one disability requirement. -/
def txBenefit : Benefit :=
  ⟨"tx-sample", "Sample Texas Benefit", "financial", BenefitLevel.stateLevel,
    ⟨some ["TX"], none, none, none⟩,
    ⟨"Texas veterans", [⟨"disability", "Disability rating of at least 10", some txCriteria⟩]⟩⟩

/-- A profile carrying only a zip code. -/
def zipOnlyProfile : VeteranProfile := ⟨"78701", none, none, none, none, none⟩

/-- A profile with a known spouse. -/
def spouseProfile : VeteranProfile := ⟨"78701", none, none, none, none, some true⟩

/-- A profile with a known (low) income level. -/
def incomeProfile : VeteranProfile := ⟨"78701", none, none, none, some "low", none⟩

/-- Criteria requiring a spouse. -/
def spouseCriteria : EligibilityCriteria := ⟨none, none, none, some true, none⟩

/-- A family requirement whose requiresSpouse flag is set. -/
def familyReq : EligibilityRequirement := ⟨"family", "Must have a spouse", some spouseCriteria⟩

/-- An income requirement with (unread) structured criteria. -/
def incomeReq : EligibilityRequirement :=
  ⟨"income", "Income below the program limit", some ⟨none, none, none, none, some 50000⟩⟩

/-! Helper lemmas. -/

/-- Spec-side reading of one coverage dimension at a resolved location:
the dimension is absent or empty, or it contains the value of the location. -/
def dimensionAdmits (dim : Option (List String)) (v : String) : Prop :=
  dim.getD [] = [] ∨ v ∈ dim.getD []

lemma dimBlocks_eq_false_iff (dim : Option (List String)) (v : String) :
    dimBlocks dim v = false ↔ dimensionAdmits dim v := by
  cases dim with
  | none => simp [dimBlocks, coverageSpecified, dimensionAdmits]
  | some l =>
    cases l with
    | nil => simp [dimBlocks, coverageSpecified, dimensionAdmits]
    | cons x xs =>
      simp only [dimBlocks, coverageSpecified, dimensionAdmits]
      simp [List.mem_cons]
      tauto

lemma dimBlocks_eq_true_iff (dim : Option (List String)) (v : String) :
    dimBlocks dim v = true ↔ ¬ dimensionAdmits dim v := by
  rw [← dimBlocks_eq_false_iff]
  cases dimBlocks dim v <;> simp

lemma benefitApplies_iff (zipCode : String) (location : ZipLocation) (b : Benefit) :
    benefitApplies zipCode location b = true ↔
      (b.level = BenefitLevel.federal ∨
        (dimensionAdmits b.coverage.states location.stateCode ∧
         dimensionAdmits b.coverage.counties location.countyFips ∧
         dimensionAdmits b.coverage.cities (location.city ++ ", " ++ location.stateCode) ∧
         dimensionAdmits b.coverage.zipCodes zipCode)) := by
  unfold benefitApplies
  by_cases hf : b.level = BenefitLevel.federal
  · simp [hf]
  · simp only [if_neg hf]
    cases h1 : dimBlocks b.coverage.states location.stateCode <;>
    cases h2 : dimBlocks b.coverage.counties location.countyFips <;>
    cases h3 : dimBlocks b.coverage.cities (location.city ++ ", " ++ location.stateCode) <;>
    cases h4 : dimBlocks b.coverage.zipCodes zipCode <;>
      simp_all [dimBlocks_eq_true_iff, dimBlocks_eq_false_iff]

/-! Claim theorems. -/

/-- C1: for every resolved location and every benefit, `getBenefitsForLocation`
keeps the benefit iff its level is federal, or every non-empty coverage
dimension (states, counties, cities, zipCodes) contains the corresponding
value of the location (state code, county FIPS, "city, stateCode", original
postal code); an absent or empty dimension never excludes, and any
present-and-failing dimension excludes. -/
theorem claim1_location_filter_characterization
    (zipCode : String) (location : ZipLocation)
    (hres : lookupZipCode zipCode = some location)
    (benefits : List Benefit) (b : Benefit) :
    b ∈ getBenefitsForLocation zipCode benefits ↔
      b ∈ benefits ∧
        (b.level = BenefitLevel.federal ∨
          (dimensionAdmits b.coverage.states location.stateCode ∧
           dimensionAdmits b.coverage.counties location.countyFips ∧
           dimensionAdmits b.coverage.cities (location.city ++ ", " ++ location.stateCode) ∧
           dimensionAdmits b.coverage.zipCodes zipCode)) := by
  unfold getBenefitsForLocation
  rw [hres]
  rw [List.mem_filter]
  rw [benefitApplies_iff]

/-- Witness for C1 at the resolved zip "78701" and the sample Texas benefit. -/
theorem claim1_witness :
    lookupZipCode "78701" = some austinLocation ∧
      (txBenefit ∈ getBenefitsForLocation "78701" [txBenefit] ↔
        txBenefit ∈ [txBenefit] ∧
          (txBenefit.level = BenefitLevel.federal ∨
            (dimensionAdmits txBenefit.coverage.states austinLocation.stateCode ∧
             dimensionAdmits txBenefit.coverage.counties austinLocation.countyFips ∧
             dimensionAdmits txBenefit.coverage.cities
               (austinLocation.city ++ ", " ++ austinLocation.stateCode) ∧
             dimensionAdmits txBenefit.coverage.zipCodes "78701"))) :=
  ⟨by decide,
   claim1_location_filter_characterization "78701" austinLocation (by decide) [txBenefit] txBenefit⟩

/-- C2: the status of the scorer is derived in this exact order: all requirements
in missingInfo gives unknown (taking precedence), else score at least 80
gives likely, else at least 50 gives possible, else unlikely. -/
theorem claim2_status_derivation_order (p : VeteranProfile) (b : Benefit) :
    (calculateMatch p b).eligibilityStatus =
      if (calculateMatch p b).missingInfo.length = b.eligibility.requirements.length then
        EligibilityStatus.unknown
      else if (calculateMatch p b).matchScore ≥ 80 then EligibilityStatus.likely
      else if (calculateMatch p b).matchScore ≥ 50 then EligibilityStatus.possible
      else EligibilityStatus.unlikely := rfl

/-- C3: for every unresolvable postal code, the output of
`getBenefitsForLocation` is exactly the federal-level subsequence of the
catalog, in original order. -/
theorem claim3_unresolved_zip_federal_only
    (zipCode : String) (hres : lookupZipCode zipCode = none)
    (benefits : List Benefit) :
    getBenefitsForLocation zipCode benefits =
      benefits.filter (fun b => decide (b.level = BenefitLevel.federal)) := by
  unfold getBenefitsForLocation
  rw [hres]

/-- Witness for C3 at the unresolvable zip "99999". -/
theorem claim3_witness :
    lookupZipCode "99999" = none ∧
      getBenefitsForLocation "99999" [fedBenefit, txBenefit] =
        [fedBenefit, txBenefit].filter (fun b => decide (b.level = BenefitLevel.federal)) :=
  ⟨by decide, claim3_unresolved_zip_federal_only "99999" (by decide) [fedBenefit, txBenefit]⟩

/-- C4: a benefit with zero requirements always scores 50 with status
unknown (the unknown check overrides the possible classification that a
score of 50 would otherwise imply). -/
theorem claim4_zero_requirements (p : VeteranProfile) (b : Benefit)
    (hreq : b.eligibility.requirements = []) :
    (calculateMatch p b).matchScore = 50 ∧
      (calculateMatch p b).eligibilityStatus = EligibilityStatus.unknown := by
  simp [calculateMatch, hreq, collectRequirements]

/-- Witness for C4 at the requirement-less federal sample benefit. -/
theorem claim4_witness :
    fedBenefit.eligibility.requirements = [] ∧
      (calculateMatch zipOnlyProfile fedBenefit).matchScore = 50 ∧
        (calculateMatch zipOnlyProfile fedBenefit).eligibilityStatus = EligibilityStatus.unknown :=
  ⟨rfl, claim4_zero_requirements zipOnlyProfile fedBenefit rfl⟩

/-- C5: for a family requirement whose requiresSpouse flag is set (true),
an unknown hasSpouse yields (null, true) and a known hasSpouse yields
(met = (hasSpouse = true), needsInfo = false). -/
theorem claim5_family_spouse (p : VeteranProfile) (req : EligibilityRequirement)
    (c : EligibilityCriteria)
    (htype : req.reqType = "family") (hcrit : req.criteria = some c)
    (hspouse : c.requiresSpouse = some true) :
    (p.hasSpouse = none → checkRequirement p req = ⟨none, true⟩) ∧
    (∀ known : Bool, p.hasSpouse = some known →
      checkRequirement p req = ⟨some (decide (p.hasSpouse = some true)), false⟩) := by
  constructor
  · intro hnone
    simp [checkRequirement, hcrit, htype, hspouse, hnone]
  · intro known hsome
    simp [checkRequirement, hcrit, htype, hspouse, hsome]

/-- Witness for C5 at a profile with a known spouse. -/
theorem claim5_witness :
    (familyReq.reqType = "family" ∧ familyReq.criteria = some spouseCriteria ∧
      spouseCriteria.requiresSpouse = some true) ∧
    ((spouseProfile.hasSpouse = none → checkRequirement spouseProfile familyReq = ⟨none, true⟩) ∧
     (∀ known : Bool, spouseProfile.hasSpouse = some known →
       checkRequirement spouseProfile familyReq =
         ⟨some (decide (spouseProfile.hasSpouse = some true)), false⟩)) :=
  ⟨⟨rfl, rfl, rfl⟩, claim5_family_spouse spouseProfile familyReq spouseCriteria rfl rfl rfl⟩

/-- C6: an income requirement always evaluates to (null, true), whatever the
criteria and the profile, even when incomeLevel is known. -/
theorem claim6_income_never_resolvable (p : VeteranProfile) (req : EligibilityRequirement)
    (htype : req.reqType = "income") :
    checkRequirement p req = ⟨none, true⟩ := by
  cases hc : req.criteria with
  | none => simp [checkRequirement, hc]
  | some c => cases hil : p.incomeLevel <;> simp [checkRequirement, hc, htype, hil]

/-- Witness for C6 at a profile with known low income and structured criteria. -/
theorem claim6_witness :
    incomeReq.reqType = "income" ∧
      checkRequirement incomeProfile incomeReq = ⟨none, true⟩ :=
  ⟨rfl, claim6_income_never_resolvable incomeProfile incomeReq rfl⟩

/-- C10: the score function round((met / total) * 100) is monotone in the
met count for a fixed positive total. -/
theorem claim10_score_monotone (total m m2 : Nat)
    (htotal : 0 < total) (hle : m ≤ m2) (hub : m2 ≤ total) :
    roundPct m total ≤ roundPct m2 total := by
  unfold roundPct
  exact Nat.div_le_div_right (by omega)

/-- Witness for C10 at total 3, met counts 1 and 2. -/
theorem claim10_witness :
    0 < 3 ∧ 1 ≤ 2 ∧ 2 ≤ 3 ∧ roundPct 1 3 ≤ roundPct 2 3 :=
  ⟨by decide, by decide, by decide, claim10_score_monotone 3 1 2 (by decide) (by decide) (by decide)⟩

/-! Structure of the evaluator output and the requirement loop. -/

lemma checkRequirement_cases (p : VeteranProfile) (req : EligibilityRequirement) :
    checkRequirement p req = ⟨none, true⟩ ∨
      ∃ b : Bool, checkRequirement p req = ⟨some b, false⟩ := by
  unfold checkRequirement
  repeat first
    | exact Or.inl rfl
    | exact Or.inr ⟨_, rfl⟩
    | split

lemma collectRequirements_spec (p : VeteranProfile) (reqs : List EligibilityRequirement) :
    (collectRequirements p reqs).1 =
      (reqs.filter (fun r => decide ((checkRequirement p r).met = some true))).map
        (fun r => r.description) ∧
    (collectRequirements p reqs).2.1 =
      (reqs.filter (fun r => decide ((checkRequirement p r).met = none))).map
        (fun r => r.description) ∧
    (collectRequirements p reqs).2.2 =
      (reqs.filter (fun r => decide ((checkRequirement p r).met = some true))).length := by
  induction reqs with
  | nil => simp [collectRequirements]
  | cons req rest ih =>
    obtain ⟨ih1, ih2, ih3⟩ := ih
    rcases checkRequirement_cases p req with h | ⟨b, h⟩
    · simp [collectRequirements, h, List.filter_cons, ih1, ih2, ih3]
    · cases b
      · simp [collectRequirements, h, List.filter_cons, ih1, ih2, ih3]
      · simp [collectRequirements, h, List.filter_cons, ih1, ih2, ih3]

lemma length_filter_add_length_filter_le {α : Type} (l : List α) (p q : α → Bool)
    (hdisj : ∀ a, p a = true → q a = true → False) :
    (l.filter p).length + (l.filter q).length ≤ l.length := by
  induction l with
  | nil => simp
  | cons x xs ih =>
    cases hp : p x
    · cases hq : q x
      · simp only [List.filter_cons, hp, hq]
        simp only [List.length_cons]
        simp
        omega
      · simp only [List.filter_cons, hp, hq]
        simp
        omega
    · cases hq : q x
      · simp only [List.filter_cons, hp, hq]
        simp
        omega
      · exact (hdisj x hp hq).elim

/-- C7: the evaluator returns needsInfo = true exactly when the verdict is
null; consequently in the scorer the matched list collects exactly the
met-true requirements and the missing list exactly the null-verdict ones,
so a met-false requirement lands in neither list. -/
theorem claim7_needsInfo_iff_null :
    (∀ (p : VeteranProfile) (req : EligibilityRequirement),
        ((checkRequirement p req).needsInfo = true ↔ (checkRequirement p req).met = none)) ∧
    (∀ (p : VeteranProfile) (b : Benefit),
        (calculateMatch p b).matchedRequirements =
          (b.eligibility.requirements.filter
            (fun r => decide ((checkRequirement p r).met = some true))).map
            (fun r => r.description) ∧
        (calculateMatch p b).missingInfo =
          (b.eligibility.requirements.filter
            (fun r => decide ((checkRequirement p r).met = none))).map
            (fun r => r.description)) := by
  constructor
  · intro p req
    rcases checkRequirement_cases p req with h | ⟨b, h⟩ <;> simp [h]
  · intro p b
    obtain ⟨h1, h2, _⟩ := collectRequirements_spec p b.eligibility.requirements
    exact ⟨h1, h2⟩

/-- C9: every scorer output has its score in [0, 100], and the matched and
missing lists together never exceed the number of requirements. -/
theorem claim9_score_range_and_list_sizes (p : VeteranProfile) (b : Benefit) :
    0 ≤ (calculateMatch p b).matchScore ∧ (calculateMatch p b).matchScore ≤ 100 ∧
      (calculateMatch p b).matchedRequirements.length +
        (calculateMatch p b).missingInfo.length ≤ b.eligibility.requirements.length := by
  obtain ⟨h1, h2, h3⟩ := collectRequirements_spec p b.eligibility.requirements
  refine ⟨Nat.zero_le _, ?score, ?sizes⟩
  case score =>
    show (if b.eligibility.requirements.length > 0 then
        roundPct (collectRequirements p b.eligibility.requirements).2.2
          b.eligibility.requirements.length
      else 50) ≤ 100
    by_cases ht : b.eligibility.requirements.length > 0
    · rw [if_pos ht]
      have hmt : (collectRequirements p b.eligibility.requirements).2.2 ≤
          b.eligibility.requirements.length := by
        rw [h3]
        exact List.length_filter_le _ _
      unfold roundPct
      have hlt : ((collectRequirements p b.eligibility.requirements).2.2 * 200 +
          b.eligibility.requirements.length) /
          (b.eligibility.requirements.length * 2) < 101 := by
        rw [Nat.div_lt_iff_lt_mul (by omega)]
        omega
      omega
    · rw [if_neg ht]
      omega
  case sizes =>
    show (collectRequirements p b.eligibility.requirements).1.length +
        (collectRequirements p b.eligibility.requirements).2.1.length ≤
        b.eligibility.requirements.length
    rw [h1, h2]
    simp only [List.length_map]
    apply length_filter_add_length_filter_le
    intro a ha hb
    rw [decide_eq_true_iff] at ha hb
    rw [ha] at hb
    cases hb

/-! Sorting facts for the match pipeline. -/

lemma scoreDesc_trans (a b c : BenefitMatch) :
    scoreDesc a b → scoreDesc b c → scoreDesc a c := by
  simp only [scoreDesc, decide_eq_true_iff]
  omega

lemma scoreDesc_total (a b : BenefitMatch) : scoreDesc a b || scoreDesc b a := by
  simp only [scoreDesc, Bool.or_eq_true, decide_eq_true_iff]
  omega

/-- C8: the output of `matchBenefits` is sorted by descending score, and for
each fixed score the subsequence of matches with that score is exactly the
one of the unsorted, location-filtered scored list (stable ties). -/
theorem claim8_sorted_and_stable (p : VeteranProfile) (benefits : List Benefit) :
    (matchBenefits p benefits).Pairwise (fun a b => b.matchScore ≤ a.matchScore) ∧
    (∀ s : Nat,
      (matchBenefits p benefits).filter (fun m => decide (m.matchScore = s)) =
        (scoredMatches p benefits).filter (fun m => decide (m.matchScore = s))) := by
  constructor
  · have h := List.sorted_mergeSort scoreDesc_trans scoreDesc_total (scoredMatches p benefits)
    refine h.imp ?f
    intro a b hab
    simpa [scoreDesc] using hab
  · intro s
    have hsub : List.Sublist
        ((scoredMatches p benefits).filter (fun m => decide (m.matchScore = s)))
        ((scoredMatches p benefits).mergeSort scoreDesc) := by
      apply List.sublist_mergeSort scoreDesc_trans scoreDesc_total
      · apply List.pairwise_of_forall_mem_list
        intro a ha b hb
        rw [List.mem_filter, decide_eq_true_iff] at ha hb
        simp only [scoreDesc, decide_eq_true_iff]
        omega
      · exact List.filter_sublist _
    have hperm : List.Perm ((scoredMatches p benefits).mergeSort scoreDesc)
        (scoredMatches p benefits) :=
      List.mergeSort_perm (scoredMatches p benefits) scoreDesc
    have hlen : (((scoredMatches p benefits).mergeSort scoreDesc).filter
          (fun m => decide (m.matchScore = s))).length =
        ((scoredMatches p benefits).filter (fun m => decide (m.matchScore = s))).length :=
      (hperm.filter _).length_eq
    have hsub2 := hsub.filter (fun m => decide (m.matchScore = s))
    rw [List.filter_filter] at hsub2
    have hq : (fun m : BenefitMatch =>
        decide (m.matchScore = s) && decide (m.matchScore = s)) =
        (fun m : BenefitMatch => decide (m.matchScore = s)) :=
      funext fun m => Bool.and_self _
    rw [hq] at hsub2
    exact (hsub2.eq_of_length hlen.symm).symm
